import Mathlib

/-!
Verification of the UART Tic-Tac-Toe GUI front-end (`Game.py`).

The development shallowly embeds the transport adapter
(`UARTCommunication.open_port` / `send_message` / `receive_message`), the
JSON line framing (`json.dumps` / `json.loads` on the protocol's value
domain), and the poll tick (`auto_receive` together with
`update_game_board` and the command helpers `send_move`, `set_mode`,
`reset_game`).  Python's dynamically typed values are modelled by `PyVal`;
exceptions raised and caught inside the Python functions are modelled as
explicit `Option`/`Except` results threaded along the same control flow as
the source.  Numeric JSON literals are modelled as integers: the protocol
carries only small integer fields, and a fractional or exponent literal is
treated as a parse failure rather than a float.
-/

namespace Game

/-- Model of the Python values that flow through the program: the results of
`json.loads`, the arguments of `json.dumps`, and the strings the adapter
returns.  Dicts keep insertion order, as Python dicts do. -/
inductive PyVal where
  | pyNone : PyVal
  | pyBool : Bool → PyVal
  | pyInt : Int → PyVal
  | pyStr : String → PyVal
  | pyList : List PyVal → PyVal
  | pyDict : List (String × PyVal) → PyVal
deriving Repr

/-- The character `{`. -/
def lbrace : Char := Char.ofNat 123

/-- The character `}`. -/
def rbrace : Char := Char.ofNat 125

/-- The character `"`. -/
def dquote : Char := Char.ofNat 34

/-- The character `\`. -/
def bslash : Char := Char.ofNat 92

/-- A single-quote character, as a string (used in Python exception texts). -/
def sq : String := String.singleton (Char.ofNat 39)

/-- Whitespace for Python's `str.strip()` (ASCII subset: space, tab, LF, VT,
FF, CR). -/
def isPyWs (c : Char) : Bool :=
  c.toNat = 32 || c.toNat = 9 || c.toNat = 10 || c.toNat = 11 ||
  c.toNat = 12 || c.toNat = 13

/-- Drop leading Python whitespace. -/
def stripStart : List Char → List Char
  | [] => []
  | c :: cs => if isPyWs c then stripStart cs else c :: cs

/-- Drop trailing Python whitespace. -/
def stripEnd (cs : List Char) : List Char :=
  (stripStart cs.reverse).reverse

/-- Python's `str.strip()` on the ASCII whitespace characters. -/
def pyStrip (s : String) : String :=
  String.mk (stripEnd (stripStart s.data))

/-- One lowercase hexadecimal digit. -/
def hexDigit (n : Nat) : Char :=
  if n < 10 then Char.ofNat (48 + n) else Char.ofNat (87 + (n % 16))

/-- A `\uXXXX` escape for a code point below `0x10000`. -/
def uEscape (n : Nat) : String :=
  String.mk [bslash, 'u', hexDigit (n / 4096 % 16), hexDigit (n / 256 % 16),
             hexDigit (n / 16 % 16), hexDigit (n % 16)]

/-- How `json.dumps` (default `ensure_ascii=True`) renders one character of
a string: shorthand escapes for the common control characters, `\uXXXX`
(with surrogate pairs above the BMP) for other non-printable or non-ASCII
characters, and the character itself otherwise. -/
def jsonEscapeChar (c : Char) : String :=
  if c = dquote then String.mk [bslash, dquote]
  else if c = bslash then String.mk [bslash, bslash]
  else if c.toNat = 10 then String.mk [bslash, 'n']
  else if c.toNat = 13 then String.mk [bslash, 'r']
  else if c.toNat = 9 then String.mk [bslash, 't']
  else if c.toNat = 8 then String.mk [bslash, 'b']
  else if c.toNat = 12 then String.mk [bslash, 'f']
  else if c.toNat < 32 || c.toNat > 126 then
    if c.toNat < 65536 then uEscape c.toNat
    else
      uEscape (55296 + (c.toNat - 65536) / 1024) ++
      uEscape (56320 + (c.toNat - 65536) % 1024)
  else String.singleton c

/-- `json.dumps` on a Python string: quoted, with each character escaped. -/
def dumpStr (s : String) : String :=
  String.singleton dquote ++ String.join (s.data.map jsonEscapeChar) ++
  String.singleton dquote

mutual

/-- `json.dumps` with its default separators `", "` and `": "`. -/
def dumps : PyVal → String
  | .pyNone => "null"
  | .pyBool true => "true"
  | .pyBool false => "false"
  | .pyInt n => toString n
  | .pyStr s => dumpStr s
  | .pyList xs => "[" ++ dumpsList xs ++ "]"
  | .pyDict fs => String.singleton lbrace ++ dumpsFields fs ++ String.singleton rbrace

/-- Comma-separated rendering of a JSON array's elements. -/
def dumpsList : List PyVal → String
  | [] => ""
  | [x] => dumps x
  | x :: y :: rest => dumps x ++ ", " ++ dumpsList (y :: rest)

/-- Comma-separated rendering of a JSON object's key/value pairs. -/
def dumpsFields : List (String × PyVal) → String
  | [] => ""
  | [(k, v)] => dumpStr k ++ ": " ++ dumps v
  | (k, v) :: p :: rest => dumpStr k ++ ": " ++ dumps v ++ ", " ++ dumpsFields (p :: rest)

end

/-! ## The inbound parser (`json.loads`)

Recursive-descent parser over the character list of the line, faithful to
the JSON grammar that `json.loads` accepts on this protocol: objects,
arrays, strings with escapes, integer literals (with the no-leading-zero
rule), `true` / `false` / `null`, and insignificant whitespace.  The fuel
argument only bounds nesting-driven recursion and is instantiated with the
input length, which every successful parse respects. -/

/-- JSON insignificant whitespace. -/
def isJsonWs (c : Char) : Bool :=
  c.toNat = 32 || c.toNat = 9 || c.toNat = 10 || c.toNat = 13

/-- Drop leading JSON whitespace. -/
def skipWs : List Char → List Char
  | [] => []
  | c :: cs => if isJsonWs c then skipWs cs else c :: cs

/-- Value of one hexadecimal digit. -/
def hexVal (c : Char) : Option Nat :=
  if 48 ≤ c.toNat ∧ c.toNat ≤ 57 then some (c.toNat - 48)
  else if 97 ≤ c.toNat ∧ c.toNat ≤ 102 then some (c.toNat - 87)
  else if 65 ≤ c.toNat ∧ c.toNat ≤ 70 then some (c.toNat - 55)
  else Option.none

/-- Body of a JSON string literal, after the opening quote: returns the
decoded characters and the input past the closing quote.  Raw control
characters are rejected, as `json.loads` does in strict mode. -/
def parseStrChars : List Char → Option (List Char × List Char)
  | [] => Option.none
  | c :: cs =>
    if c = dquote then some ([], cs)
    else if c = bslash then
      match cs with
      | [] => Option.none
      | e :: rest =>
        if e = dquote then (parseStrChars rest).map fun p => (dquote :: p.1, p.2)
        else if e = bslash then (parseStrChars rest).map fun p => (bslash :: p.1, p.2)
        else if e = '/' then (parseStrChars rest).map fun p => ('/' :: p.1, p.2)
        else if e = 'b' then (parseStrChars rest).map fun p => (Char.ofNat 8 :: p.1, p.2)
        else if e = 'f' then (parseStrChars rest).map fun p => (Char.ofNat 12 :: p.1, p.2)
        else if e = 'n' then (parseStrChars rest).map fun p => (Char.ofNat 10 :: p.1, p.2)
        else if e = 'r' then (parseStrChars rest).map fun p => (Char.ofNat 13 :: p.1, p.2)
        else if e = 't' then (parseStrChars rest).map fun p => (Char.ofNat 9 :: p.1, p.2)
        else if e = 'u' then
          match rest with
          | h1 :: h2 :: h3 :: h4 :: rest2 =>
            match hexVal h1, hexVal h2, hexVal h3, hexVal h4 with
            | some a, some b, some c3, some d =>
              (parseStrChars rest2).map fun p =>
                (Char.ofNat (a * 4096 + b * 256 + c3 * 16 + d) :: p.1, p.2)
            | _, _, _, _ => Option.none
          | _ => Option.none
        else Option.none
    else if c.toNat < 32 then Option.none
    else (parseStrChars cs).map fun p => (c :: p.1, p.2)

/-- Take the maximal run of decimal digits off the front of the input. -/
def takeDigits : List Char → List Char × List Char
  | [] => ([], [])
  | c :: cs =>
    if c.isDigit then
      let p := takeDigits cs
      (c :: p.1, p.2)
    else ([], c :: cs)

/-- A JSON integer literal: optional minus sign, then digits with no
leading zero.  A following `.`, `e` or `E` (a float literal) is not
modelled and makes the surrounding parse fail. -/
def parseIntLit (cs : List Char) : Option (Int × List Char) :=
  let signed : Bool × List Char :=
    match cs with
    | c :: rest => if c = '-' then (true, rest) else (false, cs)
    | [] => (false, [])
  match takeDigits signed.2 with
  | ([], _) => Option.none
  | (ds, rest) =>
    if 1 < ds.length ∧ ds.head? = some '0' then Option.none
    else
      let n : Nat := ds.foldl (fun acc c => acc * 10 + (c.toNat - 48)) 0
      some (if signed.1 then -(n : Int) else (n : Int), rest)

/-- Insert a key/value pair into an association list with Python-dict
semantics: an existing key keeps its position and gets the new value. -/
def upsert : List (String × PyVal) → String → PyVal → List (String × PyVal)
  | [], k, v => [(k, v)]
  | (k0, v0) :: rest, k, v =>
    if k0 = k then (k0, v) :: rest else (k0, v0) :: upsert rest k v

mutual

/-- Parse one JSON value, skipping leading whitespace. -/
def parseVal : Nat → List Char → Option (PyVal × List Char)
  | 0, _ => Option.none
  | Nat.succ fuel, cs0 =>
    match skipWs cs0 with
    | [] => Option.none
    | c :: rest =>
      if c = dquote then
        (parseStrChars rest).map fun p => (.pyStr (String.mk p.1), p.2)
      else if c = lbrace then
        match skipWs rest with
        | c2 :: rest2 =>
          if c2 = rbrace then some (.pyDict [], rest2)
          else
            match parsePair fuel (c2 :: rest2) with
            | some (kv, cs2) => parseObjRest fuel cs2 (upsert [] kv.1 kv.2)
            | Option.none => Option.none
        | [] => Option.none
      else if c = '[' then
        match skipWs rest with
        | c2 :: rest2 =>
          if c2 = ']' then some (.pyList [], rest2)
          else
            match parseVal fuel (c2 :: rest2) with
            | some (v, cs2) => parseArrRest fuel cs2 [v]
            | Option.none => Option.none
        | [] => Option.none
      else if c = 't' then
        match rest with
        | 'r' :: 'u' :: 'e' :: r2 => some (.pyBool true, r2)
        | _ => Option.none
      else if c = 'f' then
        match rest with
        | 'a' :: 'l' :: 's' :: 'e' :: r2 => some (.pyBool false, r2)
        | _ => Option.none
      else if c = 'n' then
        match rest with
        | 'u' :: 'l' :: 'l' :: r2 => some (.pyNone, r2)
        | _ => Option.none
      else
        match parseIntLit (c :: rest) with
        | some (n, r2) =>
          match r2 with
          | d :: _ => if d = '.' || d = 'e' || d = 'E' then Option.none
                      else some (.pyInt n, r2)
          | [] => some (.pyInt n, [])
        | Option.none => Option.none

/-- Parse one `"key": value` pair of an object. -/
def parsePair : Nat → List Char → Option ((String × PyVal) × List Char)
  | 0, _ => Option.none
  | Nat.succ fuel, cs =>
    match skipWs cs with
    | c :: rest =>
      if c = dquote then
        match parseStrChars rest with
        | some (k, cs2) =>
          match skipWs cs2 with
          | ':' :: cs3 =>
            match parseVal fuel cs3 with
            | some (v, cs4) => some ((String.mk k, v), cs4)
            | Option.none => Option.none
          | _ => Option.none
        | Option.none => Option.none
      else Option.none
    | [] => Option.none

/-- After one object pair: a closing brace ends the object, a comma starts
the next pair. -/
def parseObjRest : Nat → List Char → List (String × PyVal) → Option (PyVal × List Char)
  | 0, _, _ => Option.none
  | Nat.succ fuel, cs, acc =>
    match skipWs cs with
    | c :: rest =>
      if c = rbrace then some (.pyDict acc, rest)
      else if c = ',' then
        match parsePair fuel rest with
        | some (kv, cs2) => parseObjRest fuel cs2 (upsert acc kv.1 kv.2)
        | Option.none => Option.none
      else Option.none
    | [] => Option.none

/-- After one array element: a closing bracket ends the array, a comma
starts the next element. -/
def parseArrRest : Nat → List Char → List PyVal → Option (PyVal × List Char)
  | 0, _, _ => Option.none
  | Nat.succ fuel, cs, acc =>
    match skipWs cs with
    | c :: rest =>
      if c = ']' then some (.pyList acc, rest)
      else if c = ',' then
        match parseVal fuel rest with
        | some (v, cs2) => parseArrRest fuel cs2 (acc ++ [v])
        | Option.none => Option.none
      else Option.none
    | [] => Option.none

end

/-- `json.loads`: parse exactly one JSON value with only whitespace around
it; anything else raises `json.JSONDecodeError`, modelled as `none`. -/
def loads (s : String) : Option PyVal :=
  match parseVal (s.data.length + 1) s.data with
  | some (v, rest) => if skipWs rest = [] then some v else Option.none
  | Option.none => Option.none

/-! ## The transport adapter (`UARTCommunication`) -/

/-- The pending line that `ser.readline()` would return, already classified
by whether `.decode()` succeeds on its bytes: `valid s` are bytes decoding
to the text `s`; `invalid e` are bytes on which `.decode()` raises a
`UnicodeDecodeError` whose `str()` is `e`. -/
inductive LineData where
  | valid : String → LineData
  | invalid : String → LineData

/-- The state of the underlying `serial.Serial` handle: its open flag, the
number of unread buffered bytes (`in_waiting`), the pending line, whether
the next `write` raises (and with what message), and the log of byte
strings handed to `write` so far. -/
structure SerialPort where
  is_open : Bool
  in_waiting : Nat
  buffer : LineData
  writeError : Option String
  written : List String

/-- `UARTCommunication` instance state: `self.ser` is `None` or a serial
handle. -/
structure UART where
  ser : Option SerialPort

/-- Result of constructing `serial.Serial(port, baud_rate, timeout=1)`:
either a fresh handle or the raised exception's text.  The outcome is an
explicit argument because it is decided by the operating system. -/
def open_port (u : UART) (port : String) (baud_rate : Nat)
    (acq : Except String SerialPort) : UART × String :=
  match acq with
  | .ok s => ({ ser := some s }, "Connected to " ++ port)
  | .error e => ({ ser := Option.none }, "Error: " ++ e)

/-- `UARTCommunication.send_message`: serialize the dict, append a
newline, and hand the bytes to `ser.write` in one call; return the status
string.  Closed or absent handle: no write, `"Port not opened"`. -/
def send_message (u : UART) (message : PyVal) : UART × String :=
  match u.ser with
  | some ser =>
    if ser.is_open then
      let json_message := dumps message
      match ser.writeError with
      | some e => (u, "Error: " ++ e)
      | Option.none =>
        ({ ser := some { ser with written := ser.written ++ [json_message ++ "\n"] } },
         "Sent: " ++ json_message)
    else (u, "Port not opened")
  | Option.none => (u, "Port not opened")

/-- A serial handle after `readline()` consumed the pending line. -/
def consumeLine (ser : SerialPort) : SerialPort :=
  { ser with in_waiting := 0, buffer := .valid "" }

/-- `UARTCommunication.receive_message`: with an open handle and
buffered bytes, read one line, decode, strip, and parse it.  A decode
error or any other exception is caught and returned as an `"Error: ..."`
string; malformed JSON returns `"Error: Invalid JSON received"`.  Every
other path — no handle, closed handle, nothing buffered, or a line that is
empty after stripping — falls through to `"Port not opened"`. -/
def receive_message (u : UART) : UART × PyVal :=
  match u.ser with
  | some ser =>
    if ser.is_open then
      if ser.in_waiting > 0 then
        let u2 : UART := { ser := some (consumeLine ser) }
        match ser.buffer with
        | .invalid e => (u2, .pyStr ("Error: " ++ e))
        | .valid raw =>
          let response := pyStrip raw
          if response = "" then (u2, .pyStr "Port not opened")
          else
            match loads response with
            | some j => (u2, j)
            | Option.none => (u2, .pyStr "Error: Invalid JSON received")
      else (u, .pyStr "Port not opened")
    else (u, .pyStr "Port not opened")
  | Option.none => (u, .pyStr "Port not opened")

/-! ## Python value helpers used by the poll tick -/

/-- Python truthiness of the values `json.loads` can return. -/
def pyTruthy : PyVal → Bool
  | .pyNone => false
  | .pyBool b => b
  | .pyInt n => n != 0
  | .pyStr s => s != ""
  | .pyList xs => !xs.isEmpty
  | .pyDict fs => !fs.isEmpty

/-- Python `response != "Port not opened"`: a value of another type is
never equal to a string. -/
def notPortNotOpened : PyVal → Bool
  | .pyStr s => s != "Port not opened"
  | _ => true

/-- Key lookup in an insertion-ordered dict (both `k in d` and `d[k]`). -/
def lookupKey : List (String × PyVal) → String → Option PyVal
  | [], _ => Option.none
  | (k0, v) :: rest, k => if k0 = k then some v else lookupKey rest k

mutual

/-- Python `repr` on the modelled values (string escaping simplified to the
printable-ASCII identity, which covers every string in the protocol). -/
def pyRepr : PyVal → String
  | .pyNone => "None"
  | .pyBool true => "True"
  | .pyBool false => "False"
  | .pyInt n => toString n
  | .pyStr s => sq ++ s ++ sq
  | .pyList xs => "[" ++ pyReprList xs ++ "]"
  | .pyDict fs => String.singleton lbrace ++ pyReprFields fs ++ String.singleton rbrace

/-- Comma-separated `repr`s of a list's elements. -/
def pyReprList : List PyVal → String
  | [] => ""
  | [x] => pyRepr x
  | x :: y :: rest => pyRepr x ++ ", " ++ pyReprList (y :: rest)

/-- Comma-separated `repr`s of a dict's pairs. -/
def pyReprFields : List (String × PyVal) → String
  | [] => ""
  | [(k, v)] => sq ++ k ++ sq ++ ": " ++ pyRepr v
  | (k, v) :: p :: rest => sq ++ k ++ sq ++ ": " ++ pyRepr v ++ ", " ++ pyReprFields (p :: rest)

end

/-- Python `str()`, as used by f-string interpolation. -/
def pyStr : PyVal → String
  | .pyStr s => s
  | v => pyRepr v

/-- Python subscripting `x[i]` for a non-negative index, with the raised
exception's `str()` on failure. -/
def pyIndex : PyVal → Nat → Except String PyVal
  | .pyList xs, i =>
    if h : i < xs.length then .ok (xs.get ⟨i, h⟩)
    else .error "list index out of range"
  | .pyStr s, i =>
    if h : i < s.data.length then .ok (.pyStr (String.singleton (s.data.get ⟨i, h⟩)))
    else .error "string index out of range"
  | .pyDict _, i => .error (toString i)
  | .pyNone, _ => .error (sq ++ "NoneType" ++ sq ++ " object is not subscriptable")
  | .pyBool _, _ => .error (sq ++ "bool" ++ sq ++ " object is not subscriptable")
  | .pyInt _, _ => .error (sq ++ "int" ++ sq ++ " object is not subscriptable")

/-! ## The GUI side of the poll tick -/

/-- The nine board buttons' displayed texts (`buttons[i][j]`, always a
3 by 3 grid in the GUI). -/
structure Grid where
  c00 : PyVal
  c01 : PyVal
  c02 : PyVal
  c10 : PyVal
  c11 : PyVal
  c12 : PyVal
  c20 : PyVal
  c21 : PyVal
  c22 : PyVal

/-- `buttons[i][j].config(text=v)`. -/
def setCell (g : Grid) (i j : Nat) (v : PyVal) : Grid :=
  match i, j with
  | 0, 0 => { g with c00 := v }
  | 0, 1 => { g with c01 := v }
  | 0, 2 => { g with c02 := v }
  | 1, 0 => { g with c10 := v }
  | 1, 1 => { g with c11 := v }
  | 1, 2 => { g with c12 := v }
  | 2, 0 => { g with c20 := v }
  | 2, 1 => { g with c21 := v }
  | 2, 2 => { g with c22 := v }
  | _, _ => g

/-- The iteration order of the two nested `for i in range(3)` loops of
`update_game_board`. -/
def cellOrder : List (Nat × Nat) :=
  [(0, 0), (0, 1), (0, 2), (1, 0), (1, 1), (1, 2), (2, 0), (2, 1), (2, 2)]

/-- The loop body of `update_game_board`, cell by cell: the first failing
subscript raises, keeping the cells already written; `none` means no
exception. -/
def updateCells (board : PyVal) : List (Nat × Nat) → Grid → Grid × Option String
  | [], g => (g, Option.none)
  | (i, j) :: rest, g =>
    match pyIndex board i with
    | .error e => (g, some e)
    | .ok row =>
      match pyIndex row j with
      | .error e => (g, some e)
      | .ok v => updateCells board rest (setCell g i j v)

/-- `update_game_board(board, buttons)`: write `board[i][j]` into each
button, in loop order, propagating the first raised exception. -/
def update_game_board (board : PyVal) (buttons : Grid) : Grid × Option String :=
  updateCells board cellOrder buttons

/-- The GUI state a poll tick can touch: the board buttons, the lines
appended to the `output_text` log, and the `(title, message)` arguments of
the `messagebox.showinfo` calls spawned so far. -/
structure Gui where
  buttons : Grid
  output : List String
  modals : List (String × PyVal)

/-- The `response.get("type") == "win_status"` modal notification step. -/
def winCheck (fields : List (String × PyVal)) (g : Gui) : Gui :=
  match lookupKey fields "type" with
  | some (.pyStr t) =>
    if t = "win_status" then
      { g with modals := g.modals ++
          [("Win Status", (lookupKey fields "message").getD .pyNone)] }
    else g
  | _ => g

/-- What one run of `auto_receive`'s `try` block produces: the updated
adapter and GUI, and the text of an exception caught by the handler, if
one was raised. -/
structure TickOutcome where
  uart : UART
  gui : Gui
  raised : Option String

/-- The `try` block of `auto_receive`, mirroring its control flow:
skip when the handle is absent or closed; otherwise receive once, filter
falsy responses and the `"Port not opened"` sentinel, then dispatch — a
dict with a `"board"` key renders the board, any other dict logs
`response['message']` (raising `KeyError` when absent), and both dict
branches then check for a win-status modal; a non-dict response is logged
as `Received: ...`. -/
def tickBody (u : UART) (g : Gui) : TickOutcome :=
  match u.ser with
  | some ser =>
    if ser.is_open then
      let r := receive_message u
      let response := r.2
      if pyTruthy response && notPortNotOpened response then
        match response with
        | .pyDict fields =>
          match lookupKey fields "board" with
          | some b =>
            let upd := update_game_board b g.buttons
            match upd.2 with
            | some e => ⟨r.1, { g with buttons := upd.1 }, some e⟩
            | Option.none => ⟨r.1, winCheck fields { g with buttons := upd.1 }, Option.none⟩
          | Option.none =>
            match lookupKey fields "message" with
            | Option.none => ⟨r.1, g, some (sq ++ "message" ++ sq)⟩
            | some m =>
              let g1 := { g with output := g.output ++ ["Game status: " ++ pyStr m ++ "\n"] }
              ⟨r.1, winCheck fields g1, Option.none⟩
        | other =>
          ⟨r.1, { g with output := g.output ++ ["Received: " ++ pyStr other ++ "\n"] }, Option.none⟩
      else ⟨r.1, g, Option.none⟩
    else ⟨u, g, Option.none⟩
  | Option.none => ⟨u, g, Option.none⟩

/-- Result of one poll tick: the new adapter and GUI states, and whether
`root.after(100, ...)` re-armed the loop. -/
structure TickResult where
  uart : UART
  gui : Gui
  rearmed : Bool

/-- `auto_receive`: run the `try` block; the `except` handler appends
`Error: ...` to the log; the `root.after(100, ...)` call re-arms the loop
unconditionally, after the handler and outside the `try`. -/
def auto_receive (u : UART) (g : Gui) : TickResult :=
  { uart := (tickBody u g).uart
    gui :=
      match (tickBody u g).raised with
      | some e =>
        { (tickBody u g).gui with
          output := (tickBody u g).gui.output ++ ["Error: " ++ e ++ "\n"] }
      | Option.none => (tickBody u g).gui
    rearmed := true }

/-! ## Command helpers -/

/-- The dict `send_move` builds. -/
def moveCmd (row col : Int) : PyVal :=
  .pyDict [("command", .pyStr "MOVE"), ("row", .pyInt row), ("col", .pyInt col)]

/-- The dict `set_mode` builds. -/
def modeCmd (mode : Int) : PyVal :=
  .pyDict [("command", .pyStr "MODE"), ("mode", .pyInt mode)]

/-- The dict `reset_game` builds. -/
def resetCmd : PyVal :=
  .pyDict [("command", .pyStr "RESET")]

/-- `send_move(uart, row, col)`. -/
def send_move (u : UART) (row col : Int) : UART × String :=
  send_message u (moveCmd row col)

/-- `set_mode(uart, mode)`. -/
def set_mode (u : UART) (mode : Int) : UART × String :=
  send_message u (modeCmd mode)

/-- `reset_game(uart)`. -/
def reset_game (u : UART) : UART × String :=
  send_message u resetCmd

/-! ## Concrete fixtures -/

/-- The board buttons as the GUI constructs them (all cells `" "`). -/
def blankGrid : Grid :=
  ⟨.pyStr " ", .pyStr " ", .pyStr " ", .pyStr " ", .pyStr " ",
   .pyStr " ", .pyStr " ", .pyStr " ", .pyStr " "⟩

/-- The GUI state right after construction: blank board, empty log, no
modals. -/
def gui0 : Gui := ⟨blankGrid, [], []⟩

/-- An open handle with one buffered line and a working `write`. -/
def openPortWith (line : String) : SerialPort :=
  ⟨true, line.length, .valid line, Option.none, []⟩

/-! ## Behaviour of `receive_message` on the no-message paths -/

/-- With an open handle, both the zero-bytes-buffered path and the
blank-line path of `receive_message` fall through to the
`"Port not opened"` sentinel. -/
theorem receive_blank (u : UART) (ser : SerialPort) (hser : u.ser = some ser)
    (hopen : ser.is_open = true)
    (h : ser.in_waiting = 0 ∨ ∃ raw, ser.buffer = .valid raw ∧ pyStrip raw = "") :
    (receive_message u).2 = .pyStr "Port not opened" := by
  rcases h with h0 | ⟨raw, hbuf, hstrip⟩
  · simp [receive_message, hser, hopen, h0]
  · by_cases hw : ser.in_waiting > 0
    · simp [receive_message, hser, hopen, hw, hbuf, hstrip]
    · simp [receive_message, hser, hopen, hw]

/-- Claim C1, counterexample: on an open connection with zero unread
bytes, `receive_message` does not return `None` — it returns the string
`"Port not opened"`, another value. -/
theorem C1_counterexample :
    (receive_message ⟨some ⟨true, 0, .valid "", Option.none, []⟩⟩).2 =
      .pyStr "Port not opened" ∧
    (receive_message ⟨some ⟨true, 0, .valid "", Option.none, []⟩⟩).2 ≠ .pyNone := by
  refine ⟨rfl, fun h => ?_⟩
  exact PyVal.noConfusion h

/-- Claim C1 as amended: for every open connection with zero unread bytes,
and likewise for every buffered line that is empty after whitespace
trimming, `receive_message` returns the status string `"Port not opened"`
— the same no-message sentinel the poll loop filters out — rather than
`None`; it does not return an error or a parsed message. -/
theorem C1_no_bytes_returns_sentinel (u : UART) (ser : SerialPort)
    (hser : u.ser = some ser) (hopen : ser.is_open = true)
    (h : ser.in_waiting = 0 ∨ ∃ raw, ser.buffer = .valid raw ∧ pyStrip raw = "") :
    (receive_message u).2 = .pyStr "Port not opened" :=
  receive_blank u ser hser hopen h

/-- Witness for the amended claim C1 at a concrete open, empty-buffer
connection. -/
theorem C1_witness :
    (receive_message ⟨some ⟨true, 0, .valid "x", Option.none, []⟩⟩).2 =
      .pyStr "Port not opened" :=
  C1_no_bytes_returns_sentinel ⟨some ⟨true, 0, .valid "x", Option.none, []⟩⟩
    ⟨true, 0, .valid "x", Option.none, []⟩ rfl rfl (Or.inl rfl)

/-- Claim C3: with no serial handle, or a handle that is not open,
`send_message` returns `"Port not opened"`, leaves the adapter state
unchanged, and records no write. -/
theorem C3_send_closed_is_noop (u : UART) (msg : PyVal)
    (h : u.ser = Option.none ∨ ∃ ser, u.ser = some ser ∧ ser.is_open = false) :
    send_message u msg = (u, "Port not opened") := by
  rcases h with h0 | ⟨ser, hser, hclosed⟩
  · simp [send_message, h0]
  · simp [send_message, hser, hclosed]

/-- Witness for claim C3 on a fresh adapter (`self.ser is None`). -/
theorem C3_witness :
    send_message ⟨Option.none⟩ (moveCmd 0 0) = (⟨Option.none⟩, "Port not opened") :=
  C3_send_closed_is_noop ⟨Option.none⟩ (moveCmd 0 0) (Or.inl rfl)

/-- Claim C4: when acquiring the port raises, `open_port` returns
`"Error: "` followed by the underlying message and stores `None` in
`self.ser`, leaving the adapter closed. -/
theorem C4_open_failure_closes (u : UART) (port : String) (baud : Nat)
    (acq : Except String SerialPort) (e : String) (h : acq = .error e) :
    open_port u port baud acq = ({ ser := Option.none }, "Error: " ++ e) := by
  subst h
  rfl

/-- Witness for claim C4 at a concrete failing acquisition. -/
theorem C4_witness :
    open_port ⟨Option.none⟩ "COM3" 9600 (.error "Port error") =
      ({ ser := Option.none }, "Error: Port error") :=
  C4_open_failure_closes ⟨Option.none⟩ "COM3" 9600 (.error "Port error")
    "Port error" rfl

/-- The exact serialization of the Move row=1 col=2 command. -/
def moveJson12 : String := "\x7b\"command\": \"MOVE\", \"row\": 1, \"col\": 2\x7d"

/-- Claim C5: over an open connection, `send_move` with row=1, col=2 hands
exactly the serialized Move command followed by one newline to a single
`write` call (the write log grows by exactly that one byte string). -/
theorem C5_send_move_exact_bytes (u : UART) (ser : SerialPort)
    (hser : u.ser = some ser) (hopen : ser.is_open = true)
    (hw : ser.writeError = Option.none) :
    send_move u 1 2 =
      ({ ser := some { ser with written := ser.written ++ [moveJson12 ++ "\n"] } },
       "Sent: " ++ moveJson12) := by
  have hd : dumps (moveCmd 1 2) = moveJson12 := rfl
  simp [send_move, send_message, hser, hopen, hw, hd]

/-- Witness for claim C5 at a concrete open connection. -/
theorem C5_witness :
    send_move ⟨some (openPortWith "")⟩ 1 2 =
      ({ ser := some { openPortWith "" with written := [moveJson12 ++ "\n"] } },
       "Sent: " ++ moveJson12) :=
  C5_send_move_exact_bytes ⟨some (openPortWith "")⟩ (openPortWith "") rfl rfl rfl

/-- Claim C8: every poll tick — whatever `receive_message` returned and
whether or not the dispatch raised — ends with the unconditional
`root.after(100, ...)` call, so the loop is re-armed for the next tick. -/
theorem C8_loop_always_rearms (u : UART) (g : Gui) :
    (auto_receive u g).rearmed = true :=
  rfl

/-- Claim C2: an open connection whose buffered line is not valid JSON
makes `receive_message` return the `"Error: Invalid JSON received"` string
(never a parsed message); the poll tick appends that error text to the
output log and still re-arms for the next tick. -/
theorem C2_invalid_json_logged_loop_continues (u : UART) (ser : SerialPort)
    (g : Gui) (raw : String)
    (hser : u.ser = some ser) (hopen : ser.is_open = true)
    (hw : 0 < ser.in_waiting) (hbuf : ser.buffer = .valid raw)
    (hne : pyStrip raw ≠ "") (hbad : loads (pyStrip raw) = Option.none) :
    (receive_message u).2 = .pyStr "Error: Invalid JSON received" ∧
    (auto_receive u g).gui.output =
      g.output ++ ["Received: Error: Invalid JSON received\n"] ∧
    (auto_receive u g).rearmed = true := by
  have hrecv : receive_message u =
      (⟨some (consumeLine ser)⟩, .pyStr "Error: Invalid JSON received") := by
    simp [receive_message, hser, hopen, hw, hbuf, hne, hbad]
  have hflag : (pyTruthy (.pyStr "Error: Invalid JSON received") &&
      notPortNotOpened (.pyStr "Error: Invalid JSON received")) = true := rfl
  refine ⟨by rw [hrecv], ?_, rfl⟩
  simp [auto_receive, tickBody, hser, hopen, hrecv, hflag, pyStr]

/-- Witness for claim C2 at the spec's example line `Invalid JSON`. -/
theorem C2_witness :
    (receive_message ⟨some (openPortWith "Invalid JSON\n")⟩).2 =
      .pyStr "Error: Invalid JSON received" ∧
    (auto_receive ⟨some (openPortWith "Invalid JSON\n")⟩ gui0).gui.output =
      gui0.output ++ ["Received: Error: Invalid JSON received\n"] ∧
    (auto_receive ⟨some (openPortWith "Invalid JSON\n")⟩ gui0).rearmed = true :=
  C2_invalid_json_logged_loop_continues ⟨some (openPortWith "Invalid JSON\n")⟩
    (openPortWith "Invalid JSON\n") gui0 "Invalid JSON\n" rfl rfl
    (by decide) rfl (by intro h; exact absurd h (by decide))
    rfl

/-- Claim C9: the public interface is total — for every adapter state,
`send_message` returns one of the three status strings of its source
(`"Port not opened"`, `"Error: ..."`, `"Sent: ..."`), and
`receive_message` returns the sentinel, an `"Error: ..."` string, or the
value parsed from the buffered line; no path escapes as a raised
exception. -/
theorem C9_interface_total (u : UART) (msg : PyVal) :
    ((send_message u msg).2 = "Port not opened" ∨
     (∃ e, (send_message u msg).2 = "Error: " ++ e) ∨
     (send_message u msg).2 = "Sent: " ++ dumps msg) ∧
    ((receive_message u).2 = .pyStr "Port not opened" ∨
     (∃ e, (receive_message u).2 = .pyStr ("Error: " ++ e)) ∨
     (∃ ser raw j, u.ser = some ser ∧ ser.buffer = .valid raw ∧
       loads (pyStrip raw) = some j ∧ (receive_message u).2 = j)) := by
  constructor
  · cases hs : u.ser with
    | none => exact Or.inl (by simp [send_message, hs])
    | some ser =>
      by_cases ho : ser.is_open
      · cases hw : ser.writeError with
        | some e =>
          exact Or.inr (Or.inl ⟨e, by simp [send_message, hs, ho, hw]⟩)
        | none =>
          exact Or.inr (Or.inr (by simp [send_message, hs, ho, hw]))
      · exact Or.inl (by simp [send_message, hs, ho])
  · cases hs : u.ser with
    | none => exact Or.inl (by simp [receive_message, hs])
    | some ser =>
      by_cases ho : ser.is_open
      · by_cases hw : ser.in_waiting > 0
        · cases hb : ser.buffer with
          | invalid e =>
            exact Or.inr (Or.inl ⟨e, by simp [receive_message, hs, ho, hw, hb]⟩)
          | valid raw =>
            by_cases hstrip : pyStrip raw = ""
            · exact Or.inl (by simp [receive_message, hs, ho, hw, hb, hstrip])
            · cases hl : loads (pyStrip raw) with
              | none =>
                refine Or.inr (Or.inl ⟨"Invalid JSON received", ?_⟩)
                simp [receive_message, hs, ho, hw, hb, hstrip, hl]
              | some j =>
                exact Or.inr (Or.inr ⟨ser, raw, j, rfl, hb, hl,
                  by simp [receive_message, hs, ho, hw, hb, hstrip, hl]⟩)
        · exact Or.inl (by simp [receive_message, hs, ho, hw])
      · exact Or.inl (by simp [receive_message, hs, ho])

/-- Claim C6: every valid outbound command — Move with row, col in
[0,2], SetMode with mode in {0,1,2}, and Reset — serialized with the
adapter's send framing (`json.dumps` plus the newline terminator) and fed
back through the adapter's inbound parse (strip, then `json.loads`)
yields the original structured record. -/
theorem C6_outbound_roundtrip :
    (∀ row col : Nat, row ≤ 2 → col ≤ 2 →
      loads (pyStrip (dumps (moveCmd row col) ++ "\n")) = some (moveCmd row col)) ∧
    (∀ mode : Nat, mode ≤ 2 →
      loads (pyStrip (dumps (modeCmd mode) ++ "\n")) = some (modeCmd mode)) ∧
    loads (pyStrip (dumps resetCmd ++ "\n")) = some resetCmd := by
  refine ⟨?_, ?_, rfl⟩
  · intro row col hr hc
    have hr3 : row = 0 ∨ row = 1 ∨ row = 2 := by omega
    have hc3 : col = 0 ∨ col = 1 ∨ col = 2 := by omega
    rcases hr3 with rfl | rfl | rfl <;> rcases hc3 with rfl | rfl | rfl <;> rfl
  · intro mode hm
    have hm3 : mode = 0 ∨ mode = 1 ∨ mode = 2 := by omega
    rcases hm3 with rfl | rfl | rfl <;> rfl

/-- Witness for claim C6 at the Move row=1, col=2 command. -/
theorem C6_witness :
    loads (pyStrip (dumps (moveCmd 1 2) ++ "\n")) = some (moveCmd 1 2) :=
  C6_outbound_roundtrip.1 1 2 (by decide) (by decide)

/-! ## Dispatch lemmas for the poll tick -/

/-- With buffered bytes whose stripped line parses, `receive_message`
consumes the line and returns the parsed value. -/
theorem receive_parses (u : UART) (ser : SerialPort) (raw : String) (j : PyVal)
    (hser : u.ser = some ser) (hopen : ser.is_open = true)
    (hw : 0 < ser.in_waiting) (hbuf : ser.buffer = .valid raw)
    (hload : loads (pyStrip raw) = some j) :
    receive_message u = (⟨some (consumeLine ser)⟩, j) := by
  have hne : pyStrip raw ≠ "" := by
    intro h
    rw [h] at hload
    exact Option.noConfusion hload
  simp [receive_message, hser, hopen, hw, hbuf, hne, hload]

/-- The win-status modal step never touches the board buttons. -/
theorem winCheck_buttons (fields : List (String × PyVal)) (g : Gui) :
    (winCheck fields g).buttons = g.buttons := by
  unfold winCheck
  cases h : lookupKey fields "type" with
  | none => rfl
  | some v => cases v <;> first | rfl | (dsimp only; split <;> rfl)

/-- The win-status modal step never touches the output log. -/
theorem winCheck_output (fields : List (String × PyVal)) (g : Gui) :
    (winCheck fields g).output = g.output := by
  unfold winCheck
  cases h : lookupKey fields "type" with
  | none => rfl
  | some v => cases v <;> first | rfl | (dsimp only; split <;> rfl)

/-- A parsed dict with a `"board"` key sends the tick into the
board-update branch; the outcome is decided by whether
`update_game_board` raises. -/
theorem tickBody_board (u : UART) (ser : SerialPort) (g : Gui) (raw : String)
    (fields : List (String × PyVal)) (b : PyVal)
    (hser : u.ser = some ser) (hopen : ser.is_open = true)
    (hw : 0 < ser.in_waiting) (hbuf : ser.buffer = .valid raw)
    (hload : loads (pyStrip raw) = some (.pyDict fields))
    (hboard : lookupKey fields "board" = some b) :
    tickBody u g =
      match (update_game_board b g.buttons).2 with
      | some e =>
        ⟨⟨some (consumeLine ser)⟩,
         { g with buttons := (update_game_board b g.buttons).1 }, some e⟩
      | Option.none =>
        ⟨⟨some (consumeLine ser)⟩,
         winCheck fields { g with buttons := (update_game_board b g.buttons).1 },
         Option.none⟩ := by
  have hrecv := receive_parses u ser raw (.pyDict fields) hser hopen hw hbuf hload
  have hne : fields ≠ [] := by
    intro h
    rw [h] at hboard
    exact Option.noConfusion hboard
  have hflag : (pyTruthy (.pyDict fields) && notPortNotOpened (.pyDict fields)) = true := by
    cases fields with
    | nil => exact absurd rfl hne
    | cons p rest => rfl
  simp only [tickBody, hser, hopen, if_true, hrecv, hflag, hboard]

/-- A parsed non-empty dict with neither a `"board"` key nor a
`"message"` key makes the dispatch raise `KeyError('message')`, leaving
the GUI untouched inside the `try` block. -/
theorem tickBody_no_keys (u : UART) (ser : SerialPort) (g : Gui) (raw : String)
    (fields : List (String × PyVal))
    (hser : u.ser = some ser) (hopen : ser.is_open = true)
    (hw : 0 < ser.in_waiting) (hbuf : ser.buffer = .valid raw)
    (hload : loads (pyStrip raw) = some (.pyDict fields))
    (hne : fields ≠ [])
    (hboard : lookupKey fields "board" = Option.none)
    (hmsg : lookupKey fields "message" = Option.none) :
    tickBody u g = ⟨⟨some (consumeLine ser)⟩, g, some (sq ++ "message" ++ sq)⟩ := by
  have hrecv := receive_parses u ser raw (.pyDict fields) hser hopen hw hbuf hload
  have hflag : (pyTruthy (.pyDict fields) && notPortNotOpened (.pyDict fields)) = true := by
    cases fields with
    | nil => exact absurd rfl hne
    | cons p rest => rfl
  simp only [tickBody, hser, hopen, if_true, hrecv, hflag, hboard, hmsg]

/-- Claim C7: when the buffered line is a JSON object whose `"board"`
value is a 3 by 3 grid, one poll tick renders exactly the nine parsed
cells into the board buttons, and appends nothing to the output log. -/
theorem C7_board_rendered (u : UART) (ser : SerialPort) (g : Gui) (raw : String)
    (fields : List (String × PyVal)) (a b c d e f p q r : PyVal)
    (hser : u.ser = some ser) (hopen : ser.is_open = true)
    (hw : 0 < ser.in_waiting) (hbuf : ser.buffer = .valid raw)
    (hload : loads (pyStrip raw) = some (.pyDict fields))
    (hboard : lookupKey fields "board" =
      some (.pyList [.pyList [a, b, c], .pyList [d, e, f], .pyList [p, q, r]])) :
    (auto_receive u g).gui.buttons = ⟨a, b, c, d, e, f, p, q, r⟩ ∧
    (auto_receive u g).gui.output = g.output := by
  have ht := tickBody_board u ser g raw fields _ hser hopen hw hbuf hload hboard
  have hupd : update_game_board
      (.pyList [.pyList [a, b, c], .pyList [d, e, f], .pyList [p, q, r]]) g.buttons =
      ((⟨a, b, c, d, e, f, p, q, r⟩ : Grid), Option.none) := rfl
  rw [hupd] at ht
  constructor
  · simp [auto_receive, ht, winCheck_buttons]
  · simp [auto_receive, ht, winCheck_output]

/-- Witness for claim C7 at the spec's example board line. -/
theorem C7_witness :
    (auto_receive ⟨some (openPortWith
        "\x7b\"board\": [[\"X\",\"\",\"\"],[\"\",\"O\",\"\"],[\"\",\"\",\"\"]]\x7d\n")⟩
      gui0).gui.buttons =
      ⟨.pyStr "X", .pyStr "", .pyStr "", .pyStr "", .pyStr "O", .pyStr "",
       .pyStr "", .pyStr "", .pyStr ""⟩ ∧
    (auto_receive ⟨some (openPortWith
        "\x7b\"board\": [[\"X\",\"\",\"\"],[\"\",\"O\",\"\"],[\"\",\"\",\"\"]]\x7d\n")⟩
      gui0).gui.output = gui0.output :=
  C7_board_rendered
    ⟨some (openPortWith
      "\x7b\"board\": [[\"X\",\"\",\"\"],[\"\",\"O\",\"\"],[\"\",\"\",\"\"]]\x7d\n")⟩
    (openPortWith "\x7b\"board\": [[\"X\",\"\",\"\"],[\"\",\"O\",\"\"],[\"\",\"\",\"\"]]\x7d\n")
    gui0
    "\x7b\"board\": [[\"X\",\"\",\"\"],[\"\",\"O\",\"\"],[\"\",\"\",\"\"]]\x7d\n"
    [("board", .pyList [.pyList [.pyStr "X", .pyStr "", .pyStr ""],
                        .pyList [.pyStr "", .pyStr "O", .pyStr ""],
                        .pyList [.pyStr "", .pyStr "", .pyStr ""]])]
    (.pyStr "X") (.pyStr "") (.pyStr "") (.pyStr "") (.pyStr "O") (.pyStr "")
    (.pyStr "") (.pyStr "") (.pyStr "")
    rfl rfl (by decide) rfl rfl rfl

/-! ## Claim C10: ill-shaped dict dispatch -/

/-- If the `update_game_board` loop finishes without raising, every cell
access it performs succeeded. -/
theorem updateCells_ok_of_none (board : PyVal) (l : List (Nat × Nat)) (g : Grid)
    (h : (updateCells board l g).2 = Option.none) :
    ∀ pr ∈ l, ∃ row v, pyIndex board pr.1 = .ok row ∧ pyIndex row pr.2 = .ok v := by
  induction l generalizing g with
  | nil => intro pr hpr; exact absurd hpr (List.not_mem_nil pr)
  | cons hd tl ih =>
    intro pr hpr
    obtain ⟨i, j⟩ := hd
    simp only [updateCells] at h
    cases h1 : pyIndex board i with
    | error e => rw [h1] at h; simp at h
    | ok row =>
      simp only [h1] at h
      cases h2 : pyIndex row j with
      | error e => rw [h2] at h; simp at h
      | ok v =>
        simp only [h2] at h
        rcases List.mem_cons.mp hpr with rfl | hmem
        · exact ⟨row, v, h1, h2⟩
        · exact ih (setCell g i j v) h pr hmem

/-- Claim C10, counterexample: the empty dict `\x7b\x7d` is a received
JSON dict with neither a `"board"` nor a `"message"` key, yet the tick
appends nothing to the output log (an empty dict is falsy in Python, so
the dispatch is skipped entirely and no `Error:` line appears). -/
theorem C10_counterexample :
    loads (pyStrip "\x7b\x7d\n") = some (.pyDict []) ∧
    (auto_receive ⟨some (openPortWith "\x7b\x7d\n")⟩ gui0).gui.output = gui0.output ∧
    (auto_receive ⟨some (openPortWith "\x7b\x7d\n")⟩ gui0).gui.buttons = gui0.buttons :=
  ⟨rfl, rfl, rfl⟩

/-- Claim C10 as amended: for every received JSON object that is a
*non-empty* dict not matching an expected inbound shape — either no
`"board"` and no `"message"` key, or a `"board"` list with fewer than
three rows or some row (among the first three) that is a list with fewer
than three entries — the dispatch raises internally, the tick's handler
appends an `Error:` line to the output log, the loop still re-arms, and
in the missing-keys case the board buttons are unchanged (in the
short-board case cells written before the failing access keep their new
values). -/
theorem C10_bad_dict_logs_error (u : UART) (ser : SerialPort) (g : Gui)
    (raw : String) (fields : List (String × PyVal))
    (hser : u.ser = some ser) (hopen : ser.is_open = true)
    (hw : 0 < ser.in_waiting) (hbuf : ser.buffer = .valid raw)
    (hload : loads (pyStrip raw) = some (.pyDict fields))
    (hne : fields ≠ [])
    (hshape :
      (lookupKey fields "board" = Option.none ∧ lookupKey fields "message" = Option.none) ∨
      (∃ rows, lookupKey fields "board" = some (.pyList rows) ∧
        (rows.length < 3 ∨
         ∃ i cells, i < 3 ∧ rows[i]? = some (PyVal.pyList cells) ∧ cells.length < 3))) :
    (∃ e, (auto_receive u g).gui.output = g.output ++ ["Error: " ++ e ++ "\n"]) ∧
    (auto_receive u g).rearmed = true ∧
    ((lookupKey fields "board" = Option.none ∧ lookupKey fields "message" = Option.none) →
      (auto_receive u g).gui.buttons = g.buttons) := by
  rcases hshape with ⟨hb, hm⟩ | ⟨rows, hb, hdef⟩
  · have ht := tickBody_no_keys u ser g raw fields hser hopen hw hbuf hload hne hb hm
    refine ⟨⟨sq ++ "message" ++ sq, ?_⟩, rfl, fun _ => ?_⟩
    · simp [auto_receive, ht]
    · simp [auto_receive, ht]
  · have ht := tickBody_board u ser g raw fields _ hser hopen hw hbuf hload hb
    have herr : (update_game_board (.pyList rows) g.buttons).2 ≠ Option.none := by
      intro hnone
      have hall := updateCells_ok_of_none (.pyList rows) cellOrder g.buttons hnone
      rcases hdef with hlen | ⟨i, cells, hi, hget, hclen⟩
      · obtain ⟨row, v, h1, h2⟩ := hall (2, 0) (by decide)
        simp only [pyIndex] at h1
        split at h1
        · omega
        · simp at h1
      · have hi3 : i = 0 ∨ i = 1 ∨ i = 2 := by omega
        have hmem : (i, 2) ∈ cellOrder := by
          rcases hi3 with rfl | rfl | rfl <;> decide
        obtain ⟨row, v, h1, h2⟩ := hall (i, 2) hmem
        simp only [pyIndex] at h1
        split at h1
        case isTrue hilen =>
          injection h1 with h1e
          have hgete : rows[i]? = some (rows.get ⟨i, hilen⟩) := by
            simp [List.getElem?_eq_getElem hilen]
          rw [hgete] at hget
          injection hget with hget2
          rw [h1e] at hget2
          rw [hget2] at h2
          simp only [pyIndex] at h2
          split at h2
          · omega
          · simp at h2
        case isFalse => simp at h1
    cases hupd : (update_game_board (.pyList rows) g.buttons).2 with
    | none => exact absurd hupd herr
    | some e =>
      rw [hupd] at ht
      refine ⟨⟨e, ?_⟩, rfl, fun hcontra => ?_⟩
      · simp [auto_receive, ht]
      · rw [hcontra.1] at hb
        exact Option.noConfusion hb

/-- Witness for the amended claim C10 at the concrete line
`\x7b"type": "win_status"\x7d` (a non-empty dict with neither key). -/
theorem C10_witness :
    (∃ e, (auto_receive ⟨some (openPortWith "\x7b\"type\": \"win_status\"\x7d\n")⟩ gui0).gui.output =
      gui0.output ++ ["Error: " ++ e ++ "\n"]) ∧
    (auto_receive ⟨some (openPortWith "\x7b\"type\": \"win_status\"\x7d\n")⟩ gui0).rearmed = true ∧
    ((lookupKey [("type", PyVal.pyStr "win_status")] "board" = Option.none ∧
      lookupKey [("type", PyVal.pyStr "win_status")] "message" = Option.none) →
      (auto_receive ⟨some (openPortWith "\x7b\"type\": \"win_status\"\x7d\n")⟩ gui0).gui.buttons =
        gui0.buttons) :=
  C10_bad_dict_logs_error
    ⟨some (openPortWith "\x7b\"type\": \"win_status\"\x7d\n")⟩
    (openPortWith "\x7b\"type\": \"win_status\"\x7d\n") gui0
    "\x7b\"type\": \"win_status\"\x7d\n"
    [("type", PyVal.pyStr "win_status")]
    rfl rfl (by decide) rfl rfl (List.cons_ne_nil _ _)
    (Or.inl ⟨rfl, rfl⟩)

end Game
